import Mathlib

/-
Verification of the storage_helper module (cloud object-storage facade).

Shallow embedding conventions:
- Python strings are modelled as lists of characters (PyStr); the helpers
  pySplit, pyReplace, pyLower mirror str.split, str.replace, str.lower.
- Python exceptions are modelled with Except; an exception message is a PyStr.
- The object store backing a connection is an association list of
  (container-or-bucket, key, bytes) entries; the vendor SDK calls
  (list_blobs, get_object, delete_blob, ...) are modelled as pure queries
  and updates on that list.
- The asynchronous server-side copy of the rename and move protocol is
  modelled by a CopyEnv oracle giving, for each source and destination real
  key, the final status observed once the polling loop leaves "pending".
- Transport faults for the existence probe are modelled by an explicit list
  of (container, key) pairs for which the backend probe raises.
-/

abbrev PyStr := List Char

abbrev ErrT := PyStr

abbrev Bytes := List Nat

/-- Coerces a Lean string literal to the PyStr representation. -/
def pys (s : String) : PyStr := s.toList

/-- Fuel-driven worker for pySplit; fuel is at least the remaining length. -/
def pySplitAux (sep : PyStr) : Nat → PyStr → PyStr → List PyStr
  | _, acc, [] => [acc.reverse]
  | 0, acc, rest => [acc.reverse ++ rest]
  | fuel + 1, acc, c :: rest =>
    if sep ≠ [] ∧ sep.isPrefixOf (c :: rest) then
      acc.reverse :: pySplitAux sep fuel [] ((c :: rest).drop sep.length)
    else
      pySplitAux sep fuel (c :: acc) rest

/-- Model of Python str.split with a non-empty string separator. -/
def pySplit (sep s : PyStr) : List PyStr := pySplitAux sep (s.length + 1) [] s

/-- Fuel-driven worker for pyReplace. -/
def pyReplaceAux (old new : PyStr) : Nat → PyStr → PyStr
  | _, [] => []
  | 0, rest => rest
  | fuel + 1, c :: rest =>
    if old ≠ [] ∧ old.isPrefixOf (c :: rest) then
      new ++ pyReplaceAux old new fuel ((c :: rest).drop old.length)
    else
      c :: pyReplaceAux old new fuel rest

/-- Model of Python str.replace (all non-overlapping occurrences, left to right). -/
def pyReplace (old new s : PyStr) : PyStr := pyReplaceAux old new (s.length + 1) s

/-- Model of Python str.lower (ASCII inputs in this code base). -/
def pyLower (s : PyStr) : PyStr := s.map Char.toLower

/-- Model of urllib.parse.urlparse restricted to the scheme://netloc/path
shapes this library handles; returns (scheme, netloc, path). -/
def urlparse (uri : PyStr) : PyStr × PyStr × PyStr :=
  match pySplit (pys "://") uri with
  | [s] => ([], [], s)
  | scheme :: rest =>
    let r := List.intercalate (pys "://") rest
    (match pySplit (pys "/") r with
     | [] => (scheme, r, [])
     | netloc :: segs =>
       (scheme, netloc,
        if segs.isEmpty then [] else '/' :: List.intercalate (pys "/") segs))
  | [] => ([], [], [])

/-- Source parse_cloud_storage_uri: returns (bucket, path-with-leading-slashes-stripped, scheme). -/
def parse_cloud_storage_uri (uri : PyStr) : PyStr × PyStr × PyStr :=
  let p := urlparse uri
  (p.2.1, p.2.2.dropWhile (fun c => c == '/'), p.1)

/-- Source parse_wasb_url. Note: the source first computes
wasb_url.replace("wasb://", "") and immediately discards it, because the
second assignment replaces on wasb_url again (source lines 80 and 81); the
embedding mirrors that. The two-element unpack of components[0].split("@")
raises ValueError when the split does not have exactly two parts. -/
def parse_wasb_url (wasb_url : PyStr) : Except ErrT (PyStr × PyStr × PyStr) :=
  let _discarded := pyReplace (pys "wasb://") [] wasb_url
  let url_without := pyReplace (pys "wasbs://") [] wasb_url
  let components := pySplit (pys "/") url_without
  let c0 := components.headD []
  let acctcont : Except ErrT (PyStr × PyStr) :=
    if c0.contains '@' then
      match pySplit (pys "@") c0 with
      | [container_name, account_name] => .ok (account_name, container_name)
      | _ => .error (pys "ValueError")
    else if components.length = 1 then
      .ok (c0, [])
    else
      .ok ((pySplit (pys ".") c0).headD [], components.getD 1 [])
  match acctcont with
  | .error e => .error e
  | .ok (account_name, container_name) =>
    let path_and_filename := List.intercalate (pys "/") (components.drop 2)
    let clean_account := pyReplace (pys ".blob.core.windows.net") [] account_name
    .ok (clean_account, container_name, path_and_filename)

/-- Connection descriptor (the dict accepted by safe_conn, already structured).
Credential fields are optional, mirroring membership tests in the source. -/
structure Conn where
  BUCKET_URI : PyStr
  AWS_ACCESS_KEY_ID : Option PyStr := none
  AWS_SECRET_ACCESS_KEY : Option PyStr := none
  AZURE_STORAGE_ACCESS_KEY : Option PyStr := none
  AZURE_STORAGE_SAS_TOKEN : Option PyStr := none

/-- Scheme of the connection root URI, as the source extracts it. -/
def conn_scheme (conn : Conn) : PyStr :=
  (parse_cloud_storage_uri conn.BUCKET_URI).2.2

/-- Source get_credentials. Outer Option models the implicit Python None
return for schemes with no branch; the payload is the returned pair. -/
def get_credentials (conn : Conn) : Except ErrT (Option (Option PyStr × Option PyStr)) :=
  let scheme := conn_scheme conn
  if scheme = pys "s3" then
    match conn.AWS_ACCESS_KEY_ID, conn.AWS_SECRET_ACCESS_KEY with
    | some a, some s => .ok (some (some a, some s))
    | _, _ => .error (pys "KeyError")
  else if scheme = pys "gs" then
    .error (pys "Google Cloud Storage not supported")
  else if scheme = pys "wasbs" then
    let account_key : Option PyStr :=
      match conn.AZURE_STORAGE_ACCESS_KEY with
      | some k => some k
      | none => conn.AZURE_STORAGE_SAS_TOKEN
    .ok (some (account_key, none))
  else
    .ok none

/-- Backend client handle; only the Azure BlobServiceClient is ever built
(the boto3 construction in the source is commented out). -/
inductive StorageClient
  | blobService (account_url : PyStr)
deriving DecidableEq

/-- Source get_storage_client: gs raises, wasbs builds a blob client, every
other scheme (s3 included) falls through and returns None. -/
def get_storage_client (conn : Conn) : Except ErrT (Option StorageClient) :=
  let scheme := conn_scheme conn
  if scheme = pys "gs" then
    .error (pys "Google Cloud Storage not supported")
  else if scheme = pys "wasbs" then
    match get_credentials conn with
    | .error e => .error e
    | .ok _ =>
      match parse_wasb_url conn.BUCKET_URI with
      | .error e => .error e
      | .ok (account_name, _, _) =>
        .ok (some (StorageClient.blobService
          (pys "https://" ++ account_name ++ pys ".blob.core.windows.net")))
  else
    .ok none

/-- Source get_storage_client_type (implicit final return None). -/
def get_storage_client_type (conn : Conn) : Option PyStr :=
  let scheme := conn_scheme conn
  if scheme = pys "s3" then some (pys "aws")
  else if scheme = pys "gs" then some (pys "google")
  else if scheme = pys "wasbs" then some (pys "azure")
  else none

/-- Source is_compressed_file. -/
def is_compressed_file (f : PyStr) : Bool :=
  (pys ".gz").isSuffixOf (pyLower f) || (pys ".gzip").isSuffixOf (pyLower f) ||
    (pys ".tar").isSuffixOf (pyLower f) || (pys ".zip").isSuffixOf (pyLower f)

/-- Source is_json_file. -/
def is_json_file (f : PyStr) : Bool :=
  (pys ".json").isSuffixOf (pyLower f) || (pys ".json.gz").isSuffixOf (pyLower f)

/-- Source is_csv_file. -/
def is_csv_file (f : PyStr) : Bool :=
  (pys ".csv").isSuffixOf (pyLower f) || (pys ".csv.gz").isSuffixOf (pyLower f)

/-- Source is_txt_file. -/
def is_txt_file (f : PyStr) : Bool :=
  (pys ".txt").isSuffixOf (pyLower f) || (pys ".txt.gz").isSuffixOf (pyLower f)

/-- Source safe_uri: join the root URI and a relative key with exactly one slash. -/
def safe_uri (conn : Conn) (rel : PyStr) : PyStr :=
  let b := conn.BUCKET_URI
  let b := if (pys "/").isSuffixOf b then b else b ++ pys "/"
  b ++ rel

/-- Backend store state: entries (container-or-bucket, key, bytes). -/
abbrev Store := List (PyStr × PyStr × Bytes)

/-- Looks up the bytes stored under a container and key. -/
def store_lookup (st : Store) (c k : PyStr) : Option Bytes :=
  (st.find? (fun e => e.1 == c && e.2.1 == k)).map (fun e => e.2.2)

/-- Removes the entry stored under a container and key, if present. -/
def store_erase (st : Store) (c k : PyStr) : Store :=
  st.filter (fun e => !(e.1 == c && e.2.1 == k))

/-- Writes bytes under a container and key, overwriting any previous entry. -/
def store_insert (st : Store) (c k : PyStr) (b : Bytes) : Store :=
  store_erase st c k ++ [(c, k, b)]

/-- Keys inside a container that start with the given real key, in listing
order; models list_objects_v2 with Prefix and list_blobs with name_starts_with. -/
def store_keys_with_pfx (st : Store) (c p : PyStr) : List PyStr :=
  (st.filter (fun e => e.1 == c && p.isPrefixOf e.2.1)).map (fun e => e.2.1)

/-- Removes every entry of a container whose key starts with the given real key. -/
def store_erase_pfx (st : Store) (c p : PyStr) : Store :=
  st.filter (fun e => !(e.1 == c && p.isPrefixOf e.2.1))

/-- Source cleanout_prefix, the part that computes the replace prefix from the
connection root URI (container subtracted for azure, slashes normalized). -/
def cleanout_rp (conn : Conn) : Except ErrT PyStr :=
  let t := get_storage_client_type conn
  let bucket_uri := conn.BUCKET_URI
  let rp0 := (parse_cloud_storage_uri bucket_uri).2.1
  let step : Except ErrT PyStr :=
    if t = some (pys "azure") then
      match parse_wasb_url bucket_uri with
      | .error e => .error e
      | .ok (_, container_name, _) =>
        .ok (if container_name.isPrefixOf rp0 then rp0.drop container_name.length else rp0)
    else
      .ok rp0
  match step with
  | .error e => .error e
  | .ok rp1 =>
    let rp2 := if (pys "/").isPrefixOf rp1 then rp1.drop 1 else rp1
    let rp3 := if (pys "/").isSuffixOf rp2 then rp2 else rp2 ++ pys "/"
    .ok rp3

/-- Source cleanout_prefix, the key-stripping part: remove the replace prefix
when the key starts with it, then remove one leading slash. -/
def cleanout_pfx (conn : Conn) (key : PyStr) : Except ErrT PyStr :=
  match cleanout_rp conn with
  | .error e => .error e
  | .ok rp =>
    let k1 := if rp.isPrefixOf key then key.drop rp.length else key
    let k2 := if (pys "/").isPrefixOf k1 then k1.drop 1 else k1
    .ok k2

/-- The result-building loop of list_files: clean each backend key and keep it
when it differs from the queried relative key; a cleanout exception propagates. -/
def cleanout_filter (conn : Conn) (q : PyStr) : List PyStr → Except ErrT (List PyStr)
  | [] => .ok []
  | f :: fs =>
    match cleanout_pfx conn f with
    | .error e => .error e
    | .ok cf =>
      match cleanout_filter conn q fs with
      | .error e => .error e
      | .ok rest => .ok (if cf != q then cf :: rest else rest)

/-- Source list_files with return_details False (the details branch applies the
same cleanout and comparison to the key field of each entry). The aws branch
invokes list_objects_v2 on the client, which is None for s3 connections, so it
raises; the pure URI parsing is moved inside the branch, which cannot change
behavior since it is total. -/
def list_files (conn : Conn) (q : PyStr) (st : Store) : Except ErrT (List PyStr) :=
  match get_storage_client conn with
  | .error e => .error e
  | .ok client =>
    let t := get_storage_client_type conn
    let full_uri := safe_uri conn q
    let matching : Except ErrT (List PyStr) :=
      if t = some (pys "aws") then
        match client with
        | none => .error (pys "AttributeError")
        | some _ =>
          let bucket := (parse_cloud_storage_uri full_uri).1
          let real_pfx := (parse_cloud_storage_uri full_uri).2.1
          .ok (store_keys_with_pfx st bucket real_pfx)
      else if t = some (pys "azure") then
        match parse_wasb_url full_uri with
        | .error e => .error e
        | .ok (_, cn, real_pfx) =>
          match client with
          | none => .error (pys "AttributeError")
          | some _ => .ok (store_keys_with_pfx st cn real_pfx)
      else
        .error (pys "Unknown storage client")
    match matching with
    | .error e => .error e
    | .ok files => cleanout_filter conn q files

/-- Strict UTF-8 decoder on byte lists, modelling bytes.decode("utf-8"):
returns the code points, or none exactly when Python raises UnicodeDecodeError. -/
def utf8Decode : List Nat → Option (List Nat)
  | [] => some []
  | b1 :: rest =>
    if b1 < 128 then
      match utf8Decode rest with
      | some cs => some (b1 :: cs)
      | none => none
    else if 194 ≤ b1 ∧ b1 ≤ 223 then
      match rest with
      | b2 :: rest2 =>
        if 128 ≤ b2 ∧ b2 ≤ 191 then
          match utf8Decode rest2 with
          | some cs => some (((b1 - 192) * 64 + (b2 - 128)) :: cs)
          | none => none
        else none
      | [] => none
    else if 224 ≤ b1 ∧ b1 ≤ 239 then
      match rest with
      | b2 :: b3 :: rest3 =>
        if 128 ≤ b2 ∧ b2 ≤ 191 ∧ 128 ≤ b3 ∧ b3 ≤ 191 then
          let cp := (b1 - 224) * 4096 + (b2 - 128) * 64 + (b3 - 128)
          if 2048 ≤ cp ∧ ¬(55296 ≤ cp ∧ cp ≤ 57343) then
            match utf8Decode rest3 with
            | some cs => some (cp :: cs)
            | none => none
          else none
        else none
      | _ => none
    else if 240 ≤ b1 ∧ b1 ≤ 244 then
      match rest with
      | b2 :: b3 :: b4 :: rest4 =>
        if 128 ≤ b2 ∧ b2 ≤ 191 ∧ 128 ≤ b3 ∧ b3 ≤ 191 ∧ 128 ≤ b4 ∧ b4 ≤ 191 then
          let cp := (b1 - 240) * 262144 + (b2 - 128) * 4096 + (b3 - 128) * 64 + (b4 - 128)
          if 65536 ≤ cp ∧ cp ≤ 1114111 then
            match utf8Decode rest4 with
            | some cs => some (cp :: cs)
            | none => none
          else none
        else none
      | _ => none
    else none

/-- Result payload of read_file: raw bytes, or decoded text as code points. -/
inductive FileData
  | raw (b : Bytes)
  | text (cps : List Nat)
deriving DecidableEq

/-- The decode step of read_file (source lines 344 to 347 and 355 to 357):
text extensions decode as UTF-8 unless the key marks compression; a decode
failure raises (and is later swallowed into None by the enclosing try). -/
def decode_step (key : PyStr) (data : Bytes) : Except ErrT FileData :=
  if is_json_file key || is_csv_file key || is_txt_file key then
    if !is_compressed_file key then
      match utf8Decode data with
      | some cps => .ok (FileData.text cps)
      | none => .error (pys "UnicodeDecodeError")
    else .ok (FileData.raw data)
  else .ok (FileData.raw data)

/-- The try-block body of read_file, per backend. -/
def read_inner (conn : Conn) (key : PyStr) (st : Store) (client : Option StorageClient) :
    Except ErrT FileData :=
  let full_uri := safe_uri conn key
  let t := get_storage_client_type conn
  if t = some (pys "aws") then
    match client with
    | none => .error (pys "AttributeError")
    | some _ =>
      let bucket := (parse_cloud_storage_uri full_uri).1
      let real_key := (parse_cloud_storage_uri full_uri).2.1
      match store_lookup st bucket real_key with
      | none => .error (pys "NoSuchKey")
      | some data => decode_step key data
  else if t = some (pys "azure") then
    match parse_wasb_url full_uri with
    | .error e => .error e
    | .ok (_, cn, real_key) =>
      match client with
      | none => .error (pys "AttributeError")
      | some _ =>
        match store_lookup st cn real_key with
        | none => .error (pys "ResourceNotFoundError")
        | some data => decode_step key data
  else
    .error (pys "Unknown storage client")

/-- Source read_file: get_storage_client runs before the try block (so a gs
scheme propagates its exception); everything inside the try is swallowed into
a None return on failure. -/
def read_file (conn : Conn) (key : PyStr) (st : Store) : Except ErrT (Option FileData) :=
  match get_storage_client conn with
  | .error e => .error e
  | .ok client =>
    match read_inner conn key st client with
    | .ok d => .ok (some d)
    | .error _ => .ok none

/-- Source delete_file: get_storage_client runs before the try block; the
delete itself is best-effort (every exception inside the try is passed over). -/
def delete_file (conn : Conn) (key : PyStr) (st : Store) : Except ErrT Store :=
  match get_storage_client conn with
  | .error e => .error e
  | .ok client =>
    let full_uri := safe_uri conn key
    let t := get_storage_client_type conn
    let inner : Except ErrT Store :=
      if t = some (pys "aws") then
        match client with
        | none => .error (pys "AttributeError")
        | some _ =>
          let bucket := (parse_cloud_storage_uri full_uri).1
          let real_key := (parse_cloud_storage_uri full_uri).2.1
          .ok (store_erase st bucket real_key)
      else if t = some (pys "azure") then
        match parse_wasb_url full_uri with
        | .error e => .error e
        | .ok (_, cn, real_key) =>
          match client with
          | none => .error (pys "AttributeError")
          | some _ =>
            match store_lookup st cn real_key with
            | some _ => .ok (store_erase st cn real_key)
            | none => .error (pys "ResourceNotFoundError")
      else
        .error (pys "Unknown storage client")
    match inner with
    | .ok s2 => .ok s2
    | .error _ => .ok st

/-- Source delete_folder: the whole body sits in a try whose handler only
prints, so the function never raises; deletions are prefix-wide. -/
def delete_folder (conn : Conn) (folder : PyStr) (st : Store) : Store :=
  match get_storage_client conn with
  | .error _ => st
  | .ok client =>
    let folder2 := if (pys "/").isSuffixOf folder then folder else folder ++ pys "/"
    let full_uri := safe_uri conn folder2
    let t := get_storage_client_type conn
    if t = some (pys "aws") then
      match client with
      | none => st
      | some _ =>
        let bucket := (parse_cloud_storage_uri full_uri).1
        let real_folder := (parse_cloud_storage_uri full_uri).2.1
        store_erase (store_erase_pfx st bucket real_folder) bucket real_folder
    else if t = some (pys "azure") then
      match parse_wasb_url full_uri with
      | .error _ => st
      | .ok (_, cn, real_key) =>
        match client with
        | none => st
        | some _ => store_erase_pfx st cn real_key
    else st

/-- Final status delivered by the asynchronous server-side copy once the
polling loop leaves "pending", indexed by source and destination real keys. -/
abbrev CopyEnv := PyStr → PyStr → PyStr

/-- Source rename_file. The whole body sits in a try whose handler only
prints, so the function never raises; partial effects performed before an
exception persist. In the azure branch the source polls until the copy status
leaves "pending" and then deletes the source blob WITHOUT checking the final
status (source line 486). container_name is bound twice in the source (lines
474 and 475); both blob clients use the second binding. -/
def rename_file (conn : Conn) (old_key new_key : PyStr) (st : Store) (env : CopyEnv) : Store :=
  match delete_file conn new_key st with
  | .error _ => st
  | .ok st1 =>
    match get_storage_client conn with
    | .error _ => st1
    | .ok client =>
      let t := get_storage_client_type conn
      if t = some (pys "aws") then
        match client with
        | none => st1
        | some _ =>
          let bucket := (parse_cloud_storage_uri (safe_uri conn old_key)).1
          let real_old := (parse_cloud_storage_uri (safe_uri conn old_key)).2.1
          let real_new := (parse_cloud_storage_uri (safe_uri conn new_key)).2.1
          match store_lookup st1 bucket real_old with
          | none => st1
          | some data =>
            let st2 := store_insert st1 bucket real_new data
            match delete_file conn old_key st2 with
            | .ok st3 => st3
            | .error _ => st2
      else if t = some (pys "azure") then
        match parse_wasb_url (safe_uri conn old_key) with
        | .error _ => st1
        | .ok (_, _, real_old) =>
          match parse_wasb_url (safe_uri conn new_key) with
          | .error _ => st1
          | .ok (_, cn2, real_new) =>
            match client with
            | none => st1
            | some _ =>
              match store_lookup st1 cn2 real_old with
              | none => st1
              | some data =>
                let status := env real_old real_new
                let st2 :=
                  if status = pys "success" then store_insert st1 cn2 real_new data else st1
                match store_lookup st2 cn2 real_old with
                | some _ => store_erase st2 cn2 real_old
                | none => st2
      else st1

/-- Source rename_folder. A trailing slash on either folder key is handled
with the slice [:1] (source lines 501 and 503), which truncates the key to
its FIRST character instead of removing the trailing slash. -/
def rename_folder (conn : Conn) (old_key new_key : PyStr) (st : Store) (env : CopyEnv) :
    Except ErrT Store :=
  let old2 := if (pys "/").isSuffixOf old_key then old_key.take 1 else old_key
  let new2 := if (pys "/").isSuffixOf new_key then new_key.take 1 else new_key
  let st1 := delete_folder conn new2 st
  match list_files conn old2 st1 with
  | .error e => .error e
  | .ok files =>
    let st2 := files.foldl (fun s f => rename_file conn f (new2 ++ f.drop old2.length) s env) st1
    .ok (delete_folder conn old2 st2)

/-- Source check_if_file_exists. The aws branch wraps its probe in a
try/except returning False; the azure branch calls blob_client.exists() with
no handler, so a transport fault propagates. faults lists the (container,
key) pairs whose probe raises. -/
def check_if_file_exists (conn : Conn) (key : PyStr) (st : Store)
    (faults : List (PyStr × PyStr)) : Except ErrT Bool :=
  match get_storage_client conn with
  | .error e => .error e
  | .ok client =>
    let full_uri := safe_uri conn key
    let t := get_storage_client_type conn
    if t = some (pys "aws") then
      let inner : Except ErrT Bool :=
        match client with
        | none => .error (pys "AttributeError")
        | some _ =>
          let bucket := (parse_cloud_storage_uri full_uri).1
          let real_key := (parse_cloud_storage_uri full_uri).2.1
          if faults.contains (bucket, real_key) then .error (pys "transport error")
          else
            match store_lookup st bucket real_key with
            | some _ => .ok true
            | none => .error (pys "404")
      match inner with
      | .ok b => .ok b
      | .error _ => .ok false
    else if t = some (pys "azure") then
      match parse_wasb_url full_uri with
      | .error e => .error e
      | .ok (_, cn, real_key) =>
        match client with
        | none => .error (pys "AttributeError")
        | some _ =>
          if faults.contains (cn, real_key) then .error (pys "transport error")
          else .ok ((store_lookup st cn real_key).isSome)
    else
      .ok false

/-- Source move_file: an azure-only path with no try/except, so every failure
propagates. After the polling loop it checks the final status, raises an
error naming source key, destination key and status on non-success, and
deletes the source only afterwards and only when delete_src_key is set. -/
def move_file (src_key dest_key : PyStr) (src_conn : Conn) (dest_conn : Option Conn)
    (delete_src_key : Bool) (st : Store) (env : CopyEnv) : Except ErrT Store :=
  let dconn := dest_conn.getD src_conn
  let src_full := safe_uri src_conn src_key
  let dest_full := safe_uri dconn dest_key
  match parse_wasb_url src_full with
  | .error e => .error e
  | .ok (_, src_cn, src_rk) =>
    match get_storage_client src_conn with
    | .error e => .error e
    | .ok none => .error (pys "AttributeError")
    | .ok (some _) =>
      match parse_wasb_url dest_full with
      | .error e => .error e
      | .ok (_, dest_cn, dest_rk) =>
        match get_storage_client dconn with
        | .error e => .error e
        | .ok none => .error (pys "AttributeError")
        | .ok (some _) =>
          match store_lookup st src_cn src_rk with
          | none => .error (pys "CopySourceNotFound")
          | some data =>
            let status := env src_rk dest_rk
            if status = pys "success" then
              let st2 := store_insert st dest_cn dest_rk data
              if delete_src_key then
                match store_lookup st2 src_cn src_rk with
                | some _ => .ok (store_erase st2 src_cn src_rk)
                | none => .error (pys "ResourceNotFoundError")
              else .ok st2
            else
              .error (pys "Failed to copy blob from " ++ src_key ++ pys " to " ++ dest_key ++
                pys ": " ++ status)

/-- Printed backend identifier inside the not-yet-supported message: the
Python f-string renders None as the text None. -/
def typeRepr : Option PyStr → PyStr
  | none => pys "None"
  | some s => s

/-- The not-yet-supported message, naming the backend and the operation,
exactly as the f-strings in the directory operations build it. -/
def unsupported_msg (t : Option PyStr) (op : PyStr) : PyStr :=
  pys "Storage type \"" ++ typeRepr t ++ pys "\" for \"" ++ op ++
    pys "\" not yet supported"

/-- Source create_directory: non-azure backends raise before anything else
happens; the azure DataLake create is modelled as writing a directory marker. -/
def create_directory (conn : Conn) (key : PyStr) (st : Store) : Except ErrT Store :=
  let t := get_storage_client_type conn
  if t ≠ some (pys "azure") then
    .error (unsupported_msg t (pys "create_directory"))
  else
    match parse_wasb_url (safe_uri conn key) with
    | .error e => .error e
    | .ok (_, cn, dir) => .ok (store_insert st cn dir [])

/-- Source rename_directory: non-azure backends raise before anything else
happens; the azure DataLake rename is modelled as moving every entry under
the source directory path beneath the destination directory path. -/
def rename_directory (conn : Conn) (src_key dest_key : PyStr) (st : Store) : Except ErrT Store :=
  let t := get_storage_client_type conn
  if t ≠ some (pys "azure") then
    .error (unsupported_msg t (pys "rename_directory"))
  else
    match parse_wasb_url (safe_uri conn src_key) with
    | .error e => .error e
    | .ok (_, cn, src_dir) =>
      match parse_wasb_url (safe_uri conn dest_key) with
      | .error e => .error e
      | .ok (_, _, dest_dir) =>
        .ok (st.map (fun e =>
          if e.1 == cn && src_dir.isPrefixOf e.2.1 then
            (e.1, dest_dir ++ e.2.1.drop src_dir.length, e.2.2)
          else e))

/-- Source delete_directory: non-azure backends raise before anything else
happens; the azure DataLake delete is modelled as removing the directory
marker and everything beneath it. -/
def delete_directory (conn : Conn) (key : PyStr) (st : Store) : Except ErrT Store :=
  let t := get_storage_client_type conn
  if t ≠ some (pys "azure") then
    .error (unsupported_msg t (pys "delete_directory"))
  else
    match parse_wasb_url (safe_uri conn key) with
    | .error e => .error e
    | .ok (_, cn, dir) =>
      .ok (store_erase (store_erase_pfx st cn (dir ++ pys "/")) cn dir)

/-- Comparator written from the specification sentence for read: a key with a
text extension (json, csv or txt, optionally suffixed .gz) that does not
indicate compression decodes as UTF-8 (None when the bytes are invalid);
every other key returns the raw bytes. -/
def read_decode_spec (key : PyStr) (data : Bytes) : Option FileData :=
  if (is_json_file key || is_csv_file key || is_txt_file key) && !is_compressed_file key then
    match utf8Decode data with
    | some cps => some (FileData.text cps)
    | none => none
  else some (FileData.raw data)

/-- An s3 connection whose root URI carries the path prefix data. -/
def conn_s3 : Conn := ⟨pys "s3://bucket/data", none, none, none, none⟩

/-- An s3 connection whose root URI has no path prefix. -/
def conn_s3_plain : Conn := ⟨pys "s3://bucket", none, none, none, none⟩

/-- An azure connection in account-first shape with no extra path prefix. -/
def conn_az : Conn :=
  ⟨pys "wasbs://myaccount.blob.core.windows.net/mycontainer", none, none, none, none⟩

/-- An azure connection whose root URI carries the extra path prefix data. -/
def conn_az_data : Conn :=
  ⟨pys "wasbs://myaccount.blob.core.windows.net/mycontainer/data", none, none, none, none⟩

/-- A connection using the wasb scheme (no trailing s). -/
def conn_wasb : Conn :=
  ⟨pys "wasb://mycontainer@myaccount.blob.core.windows.net/p", none, none, none, none⟩

/-- A Google Cloud Storage connection. -/
def conn_gs : Conn := ⟨pys "gs://bucket/p", none, none, none, none⟩

/-- The UTF-8 bytes of the seven-character JSON text used by the spec example. -/
def jsonBytes : Bytes := [123, 34, 120, 34, 58, 49, 125]

/-- A copy environment in which every server-side copy succeeds. -/
def env_success : CopyEnv := fun _ _ => pys "success"

/-- A copy environment in which every server-side copy ends in status failed. -/
def env_failed : CopyEnv := fun _ _ => pys "failed"

/-- Store of the C1 example over conn_az: the bare marker and two files. -/
def st_logs : Store :=
  [(pys "mycontainer", pys "logs/", [0]),
   (pys "mycontainer", pys "logs/a.txt", [1]),
   (pys "mycontainer", pys "logs/b.txt", [2])]

/-- Store holding one source object a.txt for the rename and move protocol. -/
def st_atxt : Store := [(pys "mycontainer", pys "a.txt", [7])]

/-- Store holding one object under the logs folder for rename_folder. -/
def st_logs_one : Store := [(pys "mycontainer", pys "logs/a.txt", [9])]

/-- Store holding the JSON example object in the s3 bucket. -/
def st_json_s3 : Store := [(pys "bucket", pys "a.json", jsonBytes)]

/-- Store holding the JSON example object in the azure container. -/
def st_json_az : Store := [(pys "mycontainer", pys "a.json", jsonBytes)]

/-- A list is a Boolean prefix of itself followed by anything. -/
theorem isPrefixOf_append_self (p t2 : PyStr) : p.isPrefixOf (p ++ t2) = true := by
  induction p with
  | nil => simp [List.isPrefixOf]
  | cons a as ih => simp [List.isPrefixOf, ih]

/-- A Boolean prefix can be split off the longer list. -/
theorem isPrefixOf_exists (p : PyStr) : ∀ (k : PyStr), p.isPrefixOf k = true →
    ∃ t2, k = p ++ t2 := by
  induction p with
  | nil => intro k _; exact ⟨k, rfl⟩
  | cons a as ih =>
    intro k h
    cases k with
    | nil => simp [List.isPrefixOf] at h
    | cons b bs =>
      simp only [List.isPrefixOf, Bool.and_eq_true, beq_iff_eq] at h
      obtain ⟨rfl, h2⟩ := h
      obtain ⟨t2, rfl⟩ := ih bs h2
      exact ⟨t2, rfl⟩

/-- Dropping the length of the first summand of an append recovers the second. -/
theorem drop_len_append (p t2 : PyStr) : (p ++ t2).drop p.length = t2 := by
  induction p with
  | nil => rfl
  | cons a as ih => simp [ih]

/-- Every key produced by store_keys_with_pfx starts with the queried real key. -/
theorem store_keys_with_pfx_mem (st : Store) (c p k : PyStr)
    (h : k ∈ store_keys_with_pfx st c p) : p.isPrefixOf k = true := by
  simp only [store_keys_with_pfx, List.mem_map, List.mem_filter,
    Bool.and_eq_true] at h
  obtain ⟨e, ⟨_, _, hp⟩, rfl⟩ := h
  exact hp

/-- C1 counterexample: listing "logs/" over a store containing logs/,
logs/a.txt and logs/b.txt returns [logs/a.txt, logs/b.txt]: the bare marker
is excluded but the query prefix is NOT stripped, so the result differs from
the claimed [a.txt, b.txt]. -/
theorem c1_counterexample :
    list_files conn_az (pys "logs/") st_logs = .ok [pys "logs/a.txt", pys "logs/b.txt"] ∧
      [pys "logs/a.txt", pys "logs/b.txt"] ≠ [pys "a.txt", pys "b.txt"] :=
  ⟨rfl, by decide⟩

/-- C2: evaluating parse_wasb_url on both spec example URIs. The
container-at shape drops the first path segment and returns b.txt, not the
claimed a/b.txt; the account-first shape returns a/b.txt as claimed. -/
theorem c2_eval :
    parse_wasb_url (pys "wasbs://mycontainer@myaccount.blob.core.windows.net/a/b.txt") =
        .ok (pys "myaccount", pys "mycontainer", pys "b.txt") ∧
      parse_wasb_url (pys "wasbs://myaccount.blob.core.windows.net/mycontainer/a/b.txt") =
        .ok (pys "myaccount", pys "mycontainer", pys "a/b.txt") ∧
      pys "b.txt" ≠ pys "a/b.txt" :=
  ⟨rfl, rfl, by decide⟩

/-- C3: with a copy that leaves pending in status failed, rename_file still
deletes the source object and raises nothing (the store ends empty, losing
the data), while move_file on the same input raises the explicit error
naming source, destination and status and leaves the store untouched. -/
theorem c3_eval :
    rename_file conn_az (pys "a.txt") (pys "b.txt") st_atxt env_failed = [] ∧
      env_failed (pys "a.txt") (pys "b.txt") ≠ pys "success" ∧
      move_file (pys "a.txt") (pys "b.txt") conn_az none true st_atxt env_failed =
        .error (pys "Failed to copy blob from a.txt to b.txt: failed") :=
  ⟨rfl, by decide, rfl⟩

/-- C4 counterexample: a wasb scheme connection resolves to no backend kind
(None), not to azure as claimed. -/
theorem c4_counterexample :
    get_storage_client_type conn_wasb = none ∧ (none : Option PyStr) ≠ some (pys "azure") :=
  ⟨rfl, by decide⟩

/-- C5 counterexample: over an s3 connection the stored a.json object exists
and its bytes decode as UTF-8, yet read_file returns None rather than the
decoded text, because no AWS client is ever constructed. -/
theorem c5_counterexample :
    read_file conn_s3_plain (pys "a.json") st_json_s3 = .ok none ∧
      store_lookup st_json_s3 (pys "bucket") (pys "a.json") = some jsonBytes ∧
      utf8Decode jsonBytes = some jsonBytes ∧
      (some (FileData.text jsonBytes) : Option FileData) ≠ none :=
  ⟨rfl, rfl, rfl, by decide⟩

/-- C6: rename_folder with trailing-slash folder keys truncates them to
their first character ([:1] in the source), so renaming logs/ to archive/
leaves the object at aogs/a.txt instead of archive/a.txt. -/
theorem c6_eval :
    rename_folder conn_az (pys "logs/") (pys "archive/") st_logs_one env_success =
        .ok [(pys "mycontainer", pys "aogs/a.txt", [9])] ∧
      [(pys "mycontainer", pys "aogs/a.txt", ([9] : Bytes))] ≠
        [(pys "mycontainer", pys "archive/a.txt", [9])] :=
  ⟨rfl, by decide⟩

/-- C7 counterexample: on the azure branch a transport fault during the
existence probe propagates as an exception instead of answering false. -/
theorem c7_counterexample :
    check_if_file_exists conn_az (pys "k") [] [(pys "mycontainer", pys "k")] =
        .error (pys "transport error") ∧
      (Except.error (pys "transport error") : Except ErrT Bool) ≠ .ok false :=
  ⟨rfl, by intro h; exact Except.noConfusion h⟩

/-- C8 counterexample: a backend key that does not contain the root prefix
but begins with a slash is not returned unchanged: the leading slash is
stripped. -/
theorem c8_counterexample :
    cleanout_pfx conn_s3 (pys "/x") = .ok (pys "x") ∧
      (pys "data/").isPrefixOf (pys "/x") = false ∧ pys "x" ≠ pys "/x" :=
  ⟨rfl, rfl, by decide⟩

/-- Unfolds the backend selector to its scheme dispatch. -/
theorem get_type_eq (conn : Conn) : get_storage_client_type conn =
    (if conn_scheme conn = pys "s3" then some (pys "aws")
     else if conn_scheme conn = pys "gs" then some (pys "google")
     else if conn_scheme conn = pys "wasbs" then some (pys "azure")
     else none) := rfl

/-- An s3 scheme resolves to the aws backend kind. -/
theorem scheme_s3_type (conn : Conn) (h : conn_scheme conn = pys "s3") :
    get_storage_client_type conn = some (pys "aws") := by
  rw [get_type_eq, h]
  rfl

/-- A gs scheme resolves to the google backend kind. -/
theorem scheme_gs_type (conn : Conn) (h : conn_scheme conn = pys "gs") :
    get_storage_client_type conn = some (pys "google") := by
  rw [get_type_eq, h]
  rfl

/-- A wasbs scheme resolves to the azure backend kind. -/
theorem scheme_wasbs_type (conn : Conn) (h : conn_scheme conn = pys "wasbs") :
    get_storage_client_type conn = some (pys "azure") := by
  rw [get_type_eq, h]
  rfl

/-- An s3 scheme yields no storage client (the boto3 path is commented out). -/
theorem scheme_s3_client (conn : Conn) (h : conn_scheme conn = pys "s3") :
    get_storage_client conn = .ok none := by
  unfold get_storage_client
  rw [h]
  rfl

/-- Only the s3 scheme resolves to the aws backend kind. -/
theorem type_aws_scheme (conn : Conn) (h : get_storage_client_type conn = some (pys "aws")) :
    conn_scheme conn = pys "s3" := by
  rw [get_type_eq] at h
  by_cases h1 : conn_scheme conn = pys "s3"
  · exact h1
  · rw [if_neg h1] at h
    by_cases h2 : conn_scheme conn = pys "gs"
    · rw [if_pos h2] at h
      exact absurd h (by decide)
    · rw [if_neg h2] at h
      by_cases h3 : conn_scheme conn = pys "wasbs"
      · rw [if_pos h3] at h
        exact absurd h (by decide)
      · rw [if_neg h3] at h
        exact Option.noConfusion h

/-- A connection with no resolved backend kind has none of the three schemes. -/
theorem type_none_schemes (conn : Conn) (h : get_storage_client_type conn = none) :
    conn_scheme conn ≠ pys "s3" ∧ conn_scheme conn ≠ pys "gs" ∧
      conn_scheme conn ≠ pys "wasbs" := by
  rw [get_type_eq] at h
  refine ⟨?_, ?_, ?_⟩
  · intro hx
    rw [if_pos hx] at h
    exact Option.noConfusion h
  · intro hx
    rw [if_neg (by rw [hx]; decide), if_pos hx] at h
    exact Option.noConfusion h
  · intro hx
    rw [if_neg (by rw [hx]; decide), if_neg (by rw [hx]; decide), if_pos hx] at h
    exact Option.noConfusion h

/-- A scheme that is neither gs nor wasbs yields no storage client. -/
theorem client_other_none (conn : Conn) (h2 : conn_scheme conn ≠ pys "gs")
    (h3 : conn_scheme conn ≠ pys "wasbs") : get_storage_client conn = .ok none := by
  simp only [get_storage_client]
  rw [if_neg h2, if_neg h3]

/-- A false Boolean prefix test refutes the propositional prefix relation. -/
theorem isPrefixOf_false_not (p k : PyStr) (h : p.isPrefixOf k = false) : ¬ p <+: k := by
  intro hp
  obtain ⟨t2, rfl⟩ := hp
  rw [isPrefixOf_append_self] at h
  exact Bool.noConfusion h

/-- The list_files result loop never keeps an entry equal to the queried key. -/
theorem cleanout_filter_not_mem (conn : Conn) (q : PyStr) :
    ∀ (l res : List PyStr), cleanout_filter conn q l = .ok res → q ∉ res := by
  intro l
  induction l with
  | nil =>
    intro res h
    simp only [cleanout_filter] at h
    obtain rfl : ([] : List PyStr) = res := Except.ok.inj h
    exact List.not_mem_nil q
  | cons f fs ih =>
    intro res h
    simp only [cleanout_filter] at h
    cases hcf : cleanout_pfx conn f with
    | error e => rw [hcf] at h; exact Except.noConfusion h
    | ok cf =>
      rw [hcf] at h
      cases hrec : cleanout_filter conn q fs with
      | error e => rw [hrec] at h; exact Except.noConfusion h
      | ok rest =>
        rw [hrec] at h
        obtain rfl := Except.ok.inj h
        by_cases hne : (cf != q) = true
        · rw [if_pos hne]
          intro hmem
          rcases List.mem_cons.mp hmem with rfl | hmem2
          · exact absurd hne (by simp)
          · exact ih rest hrec hmem2
        · rw [if_neg hne]
          exact ih rest hrec

/-- C8 (amended): stripping the connection root prefix from a backend key
that neither starts with the resolved prefix nor starts with a slash is a
no-op; stripping it from the resolved prefix followed by a queried relative
key yields that relative key, which is exactly the value list operations
exclude from their results. (The original no-op claim fails for keys that
begin with a slash, whose leading slash is removed; see the counterexample.) -/
theorem c8_amended :
    (∀ (conn : Conn) (key rp : PyStr), cleanout_rp conn = .ok rp →
        rp.isPrefixOf key = false → (pys "/").isPrefixOf key = false →
        cleanout_pfx conn key = .ok key)
    ∧ (∀ (conn : Conn) (q rp : PyStr), cleanout_rp conn = .ok rp →
        (pys "/").isPrefixOf q = false →
        cleanout_pfx conn (rp ++ q) = .ok q)
    ∧ (∀ (conn : Conn) (q : PyStr) (st : Store) (l : List PyStr),
        list_files conn q st = .ok l → q ∉ l) := by
  refine ⟨?_, ?_, ?_⟩
  · intro conn key rp h hk hs
    simp only [cleanout_pfx, h]
    have hk2 : ¬(rp.isPrefixOf key = true) := by rw [hk]; decide
    have hs2 : ¬((pys "/").isPrefixOf key = true) := by rw [hs]; decide
    rw [if_neg hk2, if_neg hs2]
  · intro conn q rp h hq
    simp only [cleanout_pfx, h]
    have hq2 : ¬((pys "/").isPrefixOf q = true) := by rw [hq]; decide
    rw [if_pos (isPrefixOf_append_self rp q), drop_len_append, if_neg hq2]
  · intro conn q st l h
    simp only [list_files] at h
    split at h
    · exact Except.noConfusion h
    · split at h
      · exact Except.noConfusion h
      · exact cleanout_filter_not_mem conn q _ l h

/-- Over an s3 connection read_file always returns None: the client is None,
the attribute access raises, and the try swallows it. -/
theorem read_file_s3_none (conn : Conn) (key : PyStr) (st : Store)
    (h : conn_scheme conn = pys "s3") : read_file conn key st = .ok none := by
  have hc := scheme_s3_client conn h
  have ht := scheme_s3_type conn h
  simp [read_file, read_inner, hc, ht]

/-- C4 (amended): the backend kind is resolved purely from the root URI
scheme; s3 maps to aws, gs to google and wasbs to azure, while every other
scheme, wasb included, resolves to no backend kind (None), and operating on
such a connection raises the Unknown storage client error (shown for the
list operation). -/
theorem c4_amended :
    (∀ c1 c2 : Conn, conn_scheme c1 = conn_scheme c2 →
        get_storage_client_type c1 = get_storage_client_type c2)
    ∧ (∀ c : Conn, conn_scheme c = pys "s3" → get_storage_client_type c = some (pys "aws"))
    ∧ (∀ c : Conn, conn_scheme c = pys "gs" → get_storage_client_type c = some (pys "google"))
    ∧ (∀ c : Conn, conn_scheme c = pys "wasbs" →
        get_storage_client_type c = some (pys "azure"))
    ∧ (∀ c : Conn, conn_scheme c ≠ pys "s3" → conn_scheme c ≠ pys "gs" →
        conn_scheme c ≠ pys "wasbs" → get_storage_client_type c = none)
    ∧ (∀ (c : Conn) (q : PyStr) (st : Store), get_storage_client_type c = none →
        list_files c q st = .error (pys "Unknown storage client")) := by
  refine ⟨?_, scheme_s3_type, scheme_gs_type, scheme_wasbs_type, ?_, ?_⟩
  · intro c1 c2 h
    rw [get_type_eq, get_type_eq, h]
  · intro c h1 h2 h3
    rw [get_type_eq, if_neg h1, if_neg h2, if_neg h3]
  · intro c q st h
    obtain ⟨h1, h2, h3⟩ := type_none_schemes c h
    have hc := client_other_none c h2 h3
    simp [list_files, hc, h]

/-- C9 (confirmed): every directory-native operation on a connection whose
backend kind is not azure fails with the not-yet-supported error naming the
backend kind and the operation; the result is the same for every store, so
no backend call is involved. -/
theorem c9_unsupported (conn : Conn) (k s d : PyStr) (st : Store)
    (h : get_storage_client_type conn ≠ some (pys "azure")) :
    create_directory conn k st =
        .error (unsupported_msg (get_storage_client_type conn) (pys "create_directory"))
    ∧ rename_directory conn s d st =
        .error (unsupported_msg (get_storage_client_type conn) (pys "rename_directory"))
    ∧ delete_directory conn k st =
        .error (unsupported_msg (get_storage_client_type conn) (pys "delete_directory")) := by
  refine ⟨?_, ?_, ?_⟩
  · simp only [create_directory]
    rw [if_pos h]
  · simp only [rename_directory]
    rw [if_pos h]
  · simp only [delete_directory]
    rw [if_pos h]

/-- C9 witness: instantiated at an aws connection. -/
theorem c9_witness :
    get_storage_client_type conn_s3 ≠ some (pys "azure") ∧
      create_directory conn_s3 (pys "x") [] =
        .error (unsupported_msg (get_storage_client_type conn_s3) (pys "create_directory")) :=
  ⟨by decide, (c9_unsupported conn_s3 (pys "x") (pys "s") (pys "d") [] (by decide)).1⟩

/-- C10 (confirmed): for every s3-scheme connection no storage client is
constructed (None), so the aws dispatch branch of each file operation calls
a method on None: list_files raises the attribute error, read_file and the
existence check swallow it into None and False, and delete_file leaves the
store untouched — no AWS storage call can complete. -/
theorem c10_aws_client_none (conn : Conn) (h : conn_scheme conn = pys "s3") :
    get_storage_client conn = .ok none
    ∧ (∀ (q : PyStr) (st : Store), list_files conn q st = .error (pys "AttributeError"))
    ∧ (∀ (k : PyStr) (st : Store), read_file conn k st = .ok none)
    ∧ (∀ (k : PyStr) (st : Store) (fl : List (PyStr × PyStr)),
        check_if_file_exists conn k st fl = .ok false)
    ∧ (∀ (k : PyStr) (st : Store), delete_file conn k st = .ok st) := by
  have hc := scheme_s3_client conn h
  have ht := scheme_s3_type conn h
  refine ⟨hc, ?_, ?_, ?_, ?_⟩
  · intro q st
    simp [list_files, hc, ht]
  · intro k st
    exact read_file_s3_none conn k st h
  · intro k st fl
    simp [check_if_file_exists, hc, ht]
  · intro k st
    simp [delete_file, hc, ht]

/-- C10 witness: instantiated at the concrete s3 connection; the stored
object notwithstanding, list raises and read yields None. -/
theorem c10_witness :
    conn_scheme conn_s3_plain = pys "s3" ∧
      get_storage_client conn_s3_plain = .ok none ∧
      list_files conn_s3_plain (pys "p") st_json_s3 = .error (pys "AttributeError") ∧
      read_file conn_s3_plain (pys "a.json") st_json_s3 = .ok none :=
  ⟨by decide, (c10_aws_client_none conn_s3_plain (by decide)).1,
    (c10_aws_client_none conn_s3_plain (by decide)).2.1 (pys "p") st_json_s3,
    (c10_aws_client_none conn_s3_plain (by decide)).2.2.1 (pys "a.json") st_json_s3⟩

/-- C4 witness: the scheme table and the first-use error instantiated at
concrete connections. -/
theorem c4_witness :
    get_storage_client_type conn_s3 = some (pys "aws") ∧
      get_storage_client_type conn_az = some (pys "azure") ∧
      list_files conn_wasb (pys "p") [] = .error (pys "Unknown storage client") :=
  ⟨c4_amended.2.1 conn_s3 (by decide), c4_amended.2.2.2.1 conn_az (by decide),
    c4_amended.2.2.2.2.2 conn_wasb (pys "p") [] (by decide)⟩

/-- Reduction of check_if_file_exists at the concrete azure connection. -/
theorem check_az_eq (st : Store) (fl : List (PyStr × PyStr)) :
    check_if_file_exists conn_az (pys "k") st fl =
      (if fl.contains (pys "mycontainer", pys "k") then .error (pys "transport error")
       else .ok ((store_lookup st (pys "mycontainer") (pys "k")).isSome)) := rfl

/-- C7 (amended): the existence check answers a Boolean and swallows every
probe failure into False on the aws branch (where, the client being None,
the probe always fails), but on the azure branch a transport fault during
blob_client.exists() propagates as an exception rather than answering False. -/
theorem c7_amended :
    (∀ (conn : Conn) (key : PyStr) (st : Store) (fl : List (PyStr × PyStr)),
        get_storage_client_type conn = some (pys "aws") →
        check_if_file_exists conn key st fl = .ok false)
    ∧ (∀ (st : Store) (fl : List (PyStr × PyStr)),
        fl.contains (pys "mycontainer", pys "k") = true →
        check_if_file_exists conn_az (pys "k") st fl = .error (pys "transport error")) := by
  constructor
  · intro conn key st fl h
    have hs := type_aws_scheme conn h
    have hc := scheme_s3_client conn hs
    simp [check_if_file_exists, hc, h]
  · intro st fl h
    rw [check_az_eq, if_pos h]

/-- C7 witness: the aws part at the concrete s3 connection with a stored
object and an injected fault, and the azure part at the concrete fault. -/
theorem c7_witness :
    get_storage_client_type conn_s3 = some (pys "aws") ∧
      check_if_file_exists conn_s3 (pys "k") [(pys "bucket", pys "data/k", [1])]
        [(pys "bucket", pys "data/k")] = .ok false ∧
      ([(pys "mycontainer", pys "k")] : List (PyStr × PyStr)).contains
        (pys "mycontainer", pys "k") = true ∧
      check_if_file_exists conn_az (pys "k") [] [(pys "mycontainer", pys "k")] =
        .error (pys "transport error") :=
  ⟨by decide,
    c7_amended.1 conn_s3 (pys "k") [(pys "bucket", pys "data/k", [1])]
      [(pys "bucket", pys "data/k")] (by decide),
    by decide,
    c7_amended.2 [] [(pys "mycontainer", pys "k")] (by decide)⟩

/-- The swallowed decode step agrees with the specification comparator. -/
theorem decode_step_spec (key : PyStr) (b : Bytes) :
    (match decode_step key b with
     | .ok d => (Except.ok (some d) : Except ErrT (Option FileData))
     | .error _ => .ok none) = .ok (read_decode_spec key b) := by
  cases h1 : (is_json_file key || is_csv_file key || is_txt_file key) with
  | false => simp [decode_step, read_decode_spec, h1]
  | true =>
    cases h2 : is_compressed_file key with
    | true => simp [decode_step, read_decode_spec, h1, h2]
    | false =>
      cases hd : utf8Decode b with
      | some cps => simp [decode_step, read_decode_spec, h1, h2, hd]
      | none => simp [decode_step, read_decode_spec, h1, h2, hd]

set_option maxHeartbeats 2000000 in
/-- Reduction of read_file at the concrete azure connection. -/
theorem read_file_az_eq (key : PyStr) (st : Store) :
    read_file conn_az key st =
      (match (match parse_wasb_url (safe_uri conn_az key) with
              | .error e => Except.error e
              | .ok (_, cn, real_key) =>
                match store_lookup st cn real_key with
                | none => Except.error (pys "ResourceNotFoundError")
                | some data => decode_step key data
              : Except ErrT FileData) with
       | .ok d => (Except.ok (some d) : Except ErrT (Option FileData))
       | .error _ => .ok none) := rfl

/-- A gs scheme makes get_storage_client raise, before any try block. -/
theorem scheme_gs_client (conn : Conn) (h : conn_scheme conn = pys "gs") :
    get_storage_client conn = .error (pys "Google Cloud Storage not supported") := by
  unfold get_storage_client
  rw [h]
  rfl

/-- C5 (amended): over an azure connection, read fetches the object bytes
and decodes them as UTF-8 exactly when the key has a text extension (json,
csv or txt, optionally with .gz appended) and does not indicate compression,
returning the raw bytes otherwise and None on any failure (missing object or
invalid UTF-8); over an s3 connection read always returns None because no
AWS client is ever constructed (the original claim fails there, see the
counterexample); over a gs connection read raises the not-supported error,
since get_storage_client runs before the try block. -/
theorem c5_amended :
    (∀ (key : PyStr) (st : Store) (b : Bytes),
        parse_wasb_url (safe_uri conn_az key) =
          .ok (pys "myaccount", pys "mycontainer", key) →
        store_lookup st (pys "mycontainer") key = some b →
        read_file conn_az key st = .ok (read_decode_spec key b))
    ∧ (∀ (key : PyStr) (st : Store),
        parse_wasb_url (safe_uri conn_az key) =
          .ok (pys "myaccount", pys "mycontainer", key) →
        store_lookup st (pys "mycontainer") key = none →
        read_file conn_az key st = .ok none)
    ∧ (∀ (conn : Conn) (key : PyStr) (st : Store),
        conn_scheme conn = pys "s3" → read_file conn key st = .ok none)
    ∧ (∀ (conn : Conn) (key : PyStr) (st : Store),
        conn_scheme conn = pys "gs" →
        read_file conn key st = .error (pys "Google Cloud Storage not supported")) := by
  refine ⟨?_, ?_, ?_, ?_⟩
  · intro key st b hp hl
    rw [read_file_az_eq]
    simp only [hp, hl]
    exact decode_step_spec key b
  · intro key st hp hl
    rw [read_file_az_eq]
    simp only [hp, hl]
  · intro conn key st h
    exact read_file_s3_none conn key st h
  · intro conn key st h
    have hc := scheme_gs_client conn h
    simp [read_file, hc]

/-- C5 witness: the spec example a.json round trip over azure, with the
decoded text visible, and the aws and gs behaviors at concrete connections. -/
theorem c5_witness :
    parse_wasb_url (safe_uri conn_az (pys "a.json")) =
        .ok (pys "myaccount", pys "mycontainer", pys "a.json") ∧
      store_lookup st_json_az (pys "mycontainer") (pys "a.json") = some jsonBytes ∧
      read_file conn_az (pys "a.json") st_json_az =
        .ok (read_decode_spec (pys "a.json") jsonBytes) ∧
      read_decode_spec (pys "a.json") jsonBytes = some (FileData.text jsonBytes) ∧
      conn_scheme conn_s3_plain = pys "s3" ∧
      read_file conn_s3_plain (pys "b.json") st_json_s3 = .ok none ∧
      conn_scheme conn_gs = pys "gs" ∧
      read_file conn_gs (pys "a.json") [] =
        .error (pys "Google Cloud Storage not supported") :=
  ⟨rfl, rfl, c5_amended.1 (pys "a.json") st_json_az jsonBytes rfl rfl, rfl,
    by decide, c5_amended.2.2.1 conn_s3_plain (pys "b.json") st_json_s3 (by decide),
    by decide, c5_amended.2.2.2 conn_gs (pys "a.json") [] (by decide)⟩

/-- Cleanout over the concrete azure connection with root path data strips
exactly the root prefix from keys listed under data/logs/. -/
theorem cleanout_az_data (k : PyStr) (h : (pys "data/logs/").isPrefixOf k = true) :
    cleanout_pfx conn_az_data k = .ok (k.drop (pys "data/").length) := by
  obtain ⟨t2, rfl⟩ := isPrefixOf_exists _ k h
  have hrp : cleanout_rp conn_az_data = .ok (pys "data/") := rfl
  have hsplit : pys "data/logs/" ++ t2 = pys "data/" ++ (pys "logs/" ++ t2) := by
    rw [show pys "data/logs/" = pys "data/" ++ pys "logs/" from rfl, List.append_assoc]
  simp only [cleanout_pfx, hrp, hsplit]
  have h2 : ¬((pys "/").isPrefixOf (pys "logs/" ++ t2) = true) := by
    intro hx
    exact Bool.noConfusion ((rfl : (pys "/").isPrefixOf (pys "logs/" ++ t2) = false) ▸ hx)
  rw [if_pos (isPrefixOf_append_self (pys "data/") (pys "logs/" ++ t2)), drop_len_append,
    if_neg h2]

/-- The list_files result loop over the concrete connection maps each listed
key to the key minus the root prefix and drops entries equal to the query. -/
theorem cleanout_filter_az_data (q : PyStr) (l : List PyStr)
    (h : ∀ k ∈ l, (pys "data/logs/").isPrefixOf k = true) :
    cleanout_filter conn_az_data q l =
      .ok ((l.map (fun k => k.drop (pys "data/").length)).filter (fun k => k != q)) := by
  induction l with
  | nil => rfl
  | cons f fs ih =>
    have hf := h f (List.mem_cons_self f fs)
    have hfs : ∀ k ∈ fs, (pys "data/logs/").isPrefixOf k = true :=
      fun k hk => h k (List.mem_cons_of_mem f hk)
    simp only [cleanout_filter, cleanout_az_data f hf, ih hfs, List.map_cons, List.filter_cons]

/-- C1 (amended): over a connection whose root URI carries the path prefix
data, listing the query prefix logs/ returns, in backend order, exactly the
keys of the stored objects whose backend-real key starts with the resolved
prefix data/logs/, each with the connection root prefix data/ stripped but
the query prefix retained, and with the entry equal to the bare query prefix
(the directory marker) excluded. (The original claim also strips the query
prefix; the code does not, see the counterexample.) -/
theorem c1_amended (st : Store) :
    list_files conn_az_data (pys "logs/") st =
      .ok (((store_keys_with_pfx st (pys "mycontainer") (pys "data/logs/")).map
          (fun k => k.drop (pys "data/").length)).filter (fun k => k != pys "logs/")) := by
  have hbridge : list_files conn_az_data (pys "logs/") st =
      cleanout_filter conn_az_data (pys "logs/")
        (store_keys_with_pfx st (pys "mycontainer") (pys "data/logs/")) := rfl
  rw [hbridge]
  exact cleanout_filter_az_data (pys "logs/") _
    (fun k hk => store_keys_with_pfx_mem st (pys "mycontainer") (pys "data/logs/") k hk)

/-- C8 witness: the no-op case, the marker case and the list exclusion
instantiated at concrete connections and keys. -/
theorem c8_witness :
    cleanout_rp conn_s3 = .ok (pys "data/") ∧
      (pys "data/").isPrefixOf (pys "zzz") = false ∧
      (pys "/").isPrefixOf (pys "zzz") = false ∧
      cleanout_pfx conn_s3 (pys "zzz") = .ok (pys "zzz") ∧
      cleanout_pfx conn_s3 (pys "data/" ++ pys "logs/") = .ok (pys "logs/") ∧
      pys "logs/" ∉ [pys "logs/a.txt", pys "logs/b.txt"] :=
  ⟨rfl, rfl, rfl, c8_amended.1 conn_s3 (pys "zzz") (pys "data/") rfl rfl rfl,
    c8_amended.2.1 conn_s3 (pys "logs/") (pys "data/") rfl rfl,
    c8_amended.2.2 conn_az (pys "logs/") st_logs [pys "logs/a.txt", pys "logs/b.txt"] rfl⟩
